import Mathlib

/-!
Verification of the EcoLink community resource-sharing application
(`main_app.py`) against its natural-language specification.

The program keeps two tabular stores: a resource table (`resources.csv`)
and a booking-request table (`requests.csv`), both loaded into pandas
data frames.  We embed each table as a Lean list of records, in row
order.  Calendar dates are embedded as integers (day ordinals): the
program stores dates as `YYYY-MM-DD` strings and parses them back with
`strptime`, a round trip that is the identity on well-formed dates, so
the embedding carries the ordinal directly.  Machine floats only occur
in the search component, as L2 distances handed back by the
nearest-neighbor collaborator; we embed them as rationals and treat the
collaborator's reply (the `(distance, index)` pairs of
`index.search(q_vec, k*2)`) as an explicit input list.
-/

/-- One row of the resource table (columns of `resources.csv`,
`main_app.py` lines 36-37).  `availability_start`/`availability_end`
are kept as strings because the program stores either a formatted date
or the empty-string sentinel meaning "unavailable". -/
structure Resource where
  id : Int
  title : String
  category : String
  description : String
  location : String
  availability_start : String
  availability_end : String
  condition : String
  rating : Int
deriving Repr, DecidableEq

/-- One row of the request table (columns of `requests.csv`,
`main_app.py` lines 38-39).  `start_date`/`end_date` are day ordinals
(the program stores them as `YYYY-MM-DD` strings and re-parses them
with `strptime` before comparing). -/
structure Request where
  request_id : Int
  user_name : String
  resource_id : Int
  resource_title : String
  start_date : Int
  end_date : Int
  status : String
deriving Repr, DecidableEq

/-- The program's global mutable state: the two data frames
`resources_df` and `requests_df` (`main_app.py` lines 44-45). -/
structure AppState where
  resources_df : List Resource
  requests_df : List Request
deriving Repr, DecidableEq

/-- Maximum of a column, as pandas `Series.max()` computes it on a
non-empty integer column (the `[]` case is a junk value, never used by
the program, which guards every `.max()` call with an emptiness test). -/
def col_max (xs : List Int) : Int :=
  match xs with
  | [] => 0
  | x :: rest => rest.foldl max x

/-- `validate_dates` (`main_app.py` lines 50-56).  `today` is passed
explicitly; the program reads `datetime.today().date()`. -/
def validate_dates (today start_date end_date : Int) : Bool × String :=
  if start_date > end_date then
    (false, "Start date must be before or equal to end date.")
  else if start_date < today ∨ end_date < today then
    (false, "Dates cannot be in the past.")
  else
    (true, "")

/-- `is_resource_available` (`main_app.py` lines 61-71).  The source
filters the request frame to rows with the given `resource_id` and
status `Confirmed`, then walks the filtered rows and returns `False`
as soon as one overlaps the candidate range; here the filter and the
walk are fused into one pass over the rows, which visits the same rows
in the same order. -/
def is_resource_available (resource_id start_date end_date : Int)
    (requests_df : List Request) : Bool :=
  match requests_df with
  | [] => true
  | row :: rest =>
    if row.resource_id = resource_id ∧ row.status = "Confirmed" then
      if start_date ≤ row.end_date ∧ end_date ≥ row.start_date then
        false
      else
        is_resource_available resource_id start_date end_date rest
    else
      is_resource_available resource_id start_date end_date rest

/-- `add_request` (`main_app.py` lines 76-94): append one request row
with a fresh sequential `request_id`, and when the status is
`Confirmed` blank out the availability columns of every resource row
whose `id` matches (`df.loc[mask, col] = ""`).  The `to_csv` writes are
persistence of the same state and are not modelled separately. -/
def add_request (user_name : String) (resource_id : Int) (resource_title : String)
    (start_date end_date : Int) (status : String) (st : AppState) : AppState :=
  let request_id : Int :=
    if st.requests_df.isEmpty then 1
    else col_max (st.requests_df.map Request.request_id) + 1
  let new_request : Request :=
    { request_id := request_id
      user_name := user_name
      resource_id := resource_id
      resource_title := resource_title
      start_date := start_date
      end_date := end_date
      status := status }
  let requests2 := st.requests_df ++ [new_request]
  let resources2 :=
    if status = "Confirmed" then
      st.resources_df.map (fun r =>
        if r.id = resource_id then
          { r with availability_start := "", availability_end := "" }
        else r)
    else
      st.resources_df
  { resources_df := resources2, requests_df := requests2 }

/-- Python's `str.strip()`: drop leading and trailing whitespace.
Embedded structurally over the character list (rather than through
`String.trim`, whose byte-level helpers do not reduce) so that concrete
instances evaluate. -/
def py_strip (s : String) : String :=
  ⟨((s.data.dropWhile Char.isWhitespace).reverse.dropWhile
      Char.isWhitespace).reverse⟩

/-- Outcome of one submission of the request form: one of the three
`st.error` validation messages, or the `st.success` confirmation, or
the `st.warning` waitlist message. -/
inductive SubmitOutcome where
  | validationError (msg : String)
  | confirmedBooking
  | waitlisted
deriving Repr, DecidableEq

/-- The request-form submit handler (`main_app.py` lines 165-178; the
Smart Search page repeats the identical handler at lines 227-240):
validate the dates, then the trimmed user name, then ask
`is_resource_available` and append a `Confirmed` or `Waitlist` request.
The handler reads the resource's title through
`resources_df.loc[resources_df.id == resource_id].squeeze()`; we embed
that lookup as the first matching row, with a degenerate empty title
when no row matches. -/
def submit_request (today : Int) (user_name : String) (resource_id : Int)
    (start_date end_date : Int) (st : AppState) : SubmitOutcome × AppState :=
  let v := validate_dates today start_date end_date
  if v.1 = false then
    (SubmitOutcome.validationError v.2, st)
  else if py_strip user_name = "" then
    (SubmitOutcome.validationError "Please enter your name.", st)
  else
    let resource_title :=
      ((st.resources_df.find? (fun r => decide (r.id = resource_id))).map
        Resource.title).getD ""
    if is_resource_available resource_id start_date end_date st.requests_df then
      (SubmitOutcome.confirmedBooking,
        add_request user_name resource_id resource_title start_date end_date "Confirmed" st)
    else
      (SubmitOutcome.waitlisted,
        add_request user_name resource_id resource_title start_date end_date "Waitlist" st)

/-- Fresh resource id, as the Offer Resource submit handler computes it
(`main_app.py` line 265). -/
def new_resource_id (resources_df : List Resource) : Int :=
  if resources_df.isEmpty then 1
  else col_max (resources_df.map Resource.id) + 1

/-- The Offer Resource submit handler's successful branch
(`main_app.py` lines 265-277): append one resource row whose `id` is
`new_resource_id` and whose remaining fields come from the form; the
form fields are bundled in the template record `r`. -/
def offer_resource (r : Resource) (resources_df : List Resource) : List Resource :=
  resources_df ++ [{ r with id := new_resource_id resources_df }]

/-- Home page Quick Stats counter of confirmed bookings
(`main_app.py` line 129; the Admin Dashboard repeats it at line 292):
it compares the status column against the lowercase string. -/
def confirmed_requests (requests_df : List Request) : Nat :=
  (requests_df.filter (fun r => decide (r.status = "confirmed"))).length

/-- Home page Quick Stats counter of waitlisted bookings
(`main_app.py` line 130; the Admin Dashboard repeats it at line 293):
it compares the status column against the string `requested`. -/
def waitlist_requests (requests_df : List Request) : Nat :=
  (requests_df.filter (fun r => decide (r.status = "requested"))).length

/-- States reachable from the freshly initialised empty tables by the
two state-changing flows of the program: offering a resource and
submitting the booking form. -/
inductive Reachable : AppState → Prop where
  | init : Reachable { resources_df := [], requests_df := [] }
  | offer (r : Resource) (st : AppState) : Reachable st →
      Reachable { resources_df := offer_resource r st.resources_df
                  requests_df := st.requests_df }
  | submit (today : Int) (u : String) (rid s e : Int) (st : AppState) :
      Reachable st → Reachable (submit_request today u rid s e st).2

/-- Similarity score of a retrieved vector at L2 distance `d`
(`main_app.py` line 196): `max(1 - dist / 2, 0)`. -/
def score (d : ℚ) : ℚ :=
  max (1 - d / 2) 0

/-- One row of the search result frame: the reported distance, the row
position handed back by the index (`int64`, `-1` being the collaborator's
sentinel), and the attached `score` column. -/
structure SearchHit where
  dist : ℚ
  idx : Int
  score : ℚ
deriving Repr, DecidableEq

/-- Builds the Lean record for one kept result row
(`main_app.py` lines 195-196). -/
def mk_hit (p : ℚ × Int) : SearchHit :=
  { dist := p.1, idx := p.2, score := score p.1 }

/-- The loop body of `search` (`main_app.py` lines 192-199) over the
`zip(distances[0], indices[0])` pairs: keep a pair when its distance is
non-negative, and break out of the loop as soon as the result list has
reached length `k` (the break test runs after every iteration, kept or
not, exactly as in the source). -/
def search_go (k : Nat) (acc : List SearchHit) : List (ℚ × Int) → List SearchHit
  | [] => acc
  | p :: rest =>
    let acc2 := if 0 ≤ p.1 then acc ++ [mk_hit p] else acc
    if k ≤ acc2.length then acc2 else search_go k acc2 rest

/-- `search` (`main_app.py` lines 188-200).  The embedding of the query
and the nearest-neighbor lookup `index.search(q_vec, k * 2)` are opaque
collaborators; `pairs` is their reply, the `(distance, index)` pairs in
the order the index returns them (ascending distance). -/
def search (k : Nat) (pairs : List (ℚ × Int)) : List SearchHit :=
  search_go k [] pairs

/-- Restatement of the query phase in the specification's words
(spec §4.4): discard the negative-distance entries, attach the score,
and keep the first `k` surviving entries in retrieved order.  Written
from the spec, to be compared with `search`, which is written from the
source loop. -/
def search_from_spec (k : Nat) (pairs : List (ℚ × Int)) : List SearchHit :=
  (((pairs.filter (fun p => decide (0 ≤ p.1))).map mk_hit).take k)

/-- The Smart Search page query handling (`main_app.py` lines 202-204):
`search` runs only under `if query:`, i.e. only when the query string
is non-empty; otherwise no results are produced.  As in `search`,
`pairs` stands for the opaque index reply for this query. -/
def handle_search_query (query : String) (pairs : List (ℚ × Int)) : List SearchHit :=
  if query = "" then [] else search 5 pairs

example : search 2 [(0, 0), (-1, 1), (1, 2), (3, 3)] =
    [mk_hit (0, 0), mk_hit (1, 2)] := by rfl

example : is_resource_available 1 5 7 [] = true := by decide

/-! ## Helper lemmas -/

/-- `is_resource_available` answers `false` exactly when some row of the
request frame has the queried resource id, status `Confirmed`, and a
stored range meeting the candidate range under the inclusive test of
line 69. -/
lemma avail_false_iff (rid s e : Int) (l : List Request) :
    is_resource_available rid s e l = false ↔
      ∃ r ∈ l, r.resource_id = rid ∧ r.status = "Confirmed" ∧
        s ≤ r.end_date ∧ e ≥ r.start_date := by
  induction l with
  | nil => simp [is_resource_available]
  | cons row rest ih =>
    by_cases h1 : row.resource_id = rid ∧ row.status = "Confirmed"
    · by_cases h2 : s ≤ row.end_date ∧ e ≥ row.start_date
      · simp only [is_resource_available, if_pos h1, if_pos h2]
        constructor
        · intro _
          exact ⟨row, List.mem_cons_self _ _, h1.1, h1.2, h2.1, h2.2⟩
        · intro _; trivial
      · simp only [is_resource_available, if_pos h1, if_neg h2, ih]
        constructor
        · rintro ⟨r, hr, hprops⟩
          exact ⟨r, List.mem_cons_of_mem _ hr, hprops⟩
        · rintro ⟨r, hr, hprops⟩
          rcases List.mem_cons.mp hr with hEq | hMem
          · subst hEq
            exact absurd ⟨hprops.2.2.1, hprops.2.2.2⟩ h2
          · exact ⟨r, hMem, hprops⟩
    · simp only [is_resource_available, if_neg h1, ih]
      constructor
      · rintro ⟨r, hr, hprops⟩
        exact ⟨r, List.mem_cons_of_mem _ hr, hprops⟩
      · rintro ⟨r, hr, hprops⟩
        rcases List.mem_cons.mp hr with hEq | hMem
        · subst hEq
          exact absurd ⟨hprops.1, hprops.2.1⟩ h1
        · exact ⟨r, hMem, hprops⟩

/-- Availability over a concatenated ledger is the conjunction of the
availabilities over the parts. -/
lemma avail_append (rid s e : Int) (l1 l2 : List Request) :
    is_resource_available rid s e (l1 ++ l2) =
      (is_resource_available rid s e l1 && is_resource_available rid s e l2) := by
  induction l1 with
  | nil => simp [is_resource_available]
  | cons row rest ih =>
    by_cases h1 : row.resource_id = rid ∧ row.status = "Confirmed"
    · by_cases h2 : s ≤ row.end_date ∧ e ≥ row.start_date
      · simp [is_resource_available, if_pos h1, if_pos h2]
      · simp only [List.cons_append, is_resource_available, if_pos h1, if_neg h2]
        exact ih
    · simp only [List.cons_append, is_resource_available, if_neg h1]
      exact ih

/-- The seed of a `foldl max` is a lower bound of the result. -/
lemma le_foldl_max (l : List Int) (a : Int) : a ≤ l.foldl max a := by
  induction l generalizing a with
  | nil => exact le_refl a
  | cons y l ih =>
    calc a ≤ max a y := le_max_left a y
    _ ≤ l.foldl max (max a y) := ih (max a y)

/-- Every element of the list is a lower bound of its `foldl max`. -/
lemma mem_le_foldl_max (l : List Int) : ∀ (a x : Int), x ∈ l → x ≤ l.foldl max a := by
  induction l with
  | nil => intro a x hx; cases hx
  | cons y l ih =>
    intro a x hx
    rcases List.mem_cons.mp hx with hEq | hMem
    · subst hEq
      calc x ≤ max a x := le_max_right a x
      _ ≤ l.foldl max (max a x) := le_foldl_max l (max a x)
    · exact ih (max a y) x hMem

/-- `col_max` bounds every entry of the column. -/
lemma mem_le_col_max (xs : List Int) (x : Int) (hx : x ∈ xs) :
    x ≤ col_max xs := by
  cases xs with
  | nil => cases hx
  | cons y l =>
    rcases List.mem_cons.mp hx with hEq | hMem
    · subst hEq; exact le_foldl_max l x
    · exact mem_le_foldl_max l y x hMem

/-- A column of pairwise-distinct positive ids. -/
def distinct_pos (xs : List Int) : Prop :=
  (∀ x ∈ xs, 0 < x) ∧ List.Pairwise (fun a b => a ≠ b) xs

/-- Appending the freshly assigned id `max+1` (or `1` on an empty
column) keeps the id column pairwise distinct and positive. -/
lemma distinct_pos_append_fresh (xs : List Int) (h : distinct_pos xs) :
    distinct_pos (xs ++ [if xs.isEmpty then 1 else col_max xs + 1]) := by
  rcases h with ⟨hpos, hpw⟩
  set n : Int := if xs.isEmpty then 1 else col_max xs + 1 with hn
  have hgt : ∀ x ∈ xs, x < n := by
    intro x hx
    have hne : xs.isEmpty = false := by
      cases xs with
      | nil => cases hx
      | cons y l => rfl
    rw [hn, hne]
    simp only [Bool.false_eq_true, if_false]
    exact lt_of_le_of_lt (mem_le_col_max xs x hx) (lt_add_one _)
  constructor
  · intro x hx
    rcases List.mem_append.mp hx with hMem | hLast
    · exact hpos x hMem
    · have hx2 : x = n := by simpa using hLast
      subst hx2
      cases hxs : xs.isEmpty with
      | true =>
        rw [hn, hxs]; norm_num
      | false =>
        rw [hn, hxs]
        simp only [Bool.false_eq_true, if_false]
        have : xs ≠ [] := by
          intro hcon; rw [hcon] at hxs; simp at hxs
        rcases List.exists_mem_of_ne_nil xs this with ⟨y, hy⟩
        have := hpos y hy
        have := mem_le_col_max xs y hy
        omega
  · rw [List.pairwise_append]
    refine ⟨hpw, List.pairwise_singleton _ _, ?_⟩
    intro a ha b hb
    have hb2 : b = n := by simpa using hb
    subst hb2
    exact ne_of_lt (hgt a ha)

/-- Emptiness of a mapped column agrees with emptiness of the frame. -/
lemma isEmpty_map {α β : Type} (f : α → β) (l : List α) :
    (l.map f).isEmpty = l.isEmpty := by
  cases l <;> rfl

/-- Blanking the availability columns does not touch the id column. -/
lemma clear_preserves_id (rid : Int) (l : List Resource) :
    ((l.map (fun r =>
        if r.id = rid then
          { r with availability_start := "", availability_end := "" }
        else r)).map Resource.id) = l.map Resource.id := by
  rw [List.map_map]
  apply List.map_congr_left
  intro r _
  by_cases h : r.id = rid <;> simp [h]

/-- What `add_request` does to the request frame: exactly one appended
row carrying the given fields and the fresh sequential id. -/
lemma add_request_requests (u : String) (rid : Int) (title : String)
    (s e : Int) (status : String) (st : AppState) :
    (add_request u rid title s e status st).requests_df =
      st.requests_df ++
        [{ request_id :=
             if st.requests_df.isEmpty then 1
             else col_max (st.requests_df.map Request.request_id) + 1
           user_name := u
           resource_id := rid
           resource_title := title
           start_date := s
           end_date := e
           status := status }] := rfl

/-- What `add_request` does to the resource frame. -/
lemma add_request_resources (u : String) (rid : Int) (title : String)
    (s e : Int) (status : String) (st : AppState) :
    (add_request u rid title s e status st).resources_df =
      if status = "Confirmed" then
        st.resources_df.map (fun r =>
          if r.id = rid then
            { r with availability_start := "", availability_end := "" }
          else r)
      else st.resources_df := rfl

/-- The denormalized title the submit handler passes to `add_request`. -/
def looked_up_title (rid : Int) (st : AppState) : String :=
  ((st.resources_df.find? (fun r => decide (r.id = rid))).map Resource.title).getD ""

/-- On a submission that passes all three validations, the handler
reduces to the availability branch. -/
lemma submit_request_valid_eq (today : Int) (u : String) (rid s e : Int)
    (st : AppState) (hd : ¬ s > e) (hp : ¬ (s < today ∨ e < today))
    (hn : py_strip u ≠ "") :
    submit_request today u rid s e st =
      if is_resource_available rid s e st.requests_df then
        (SubmitOutcome.confirmedBooking,
          add_request u rid (looked_up_title rid st) s e "Confirmed" st)
      else
        (SubmitOutcome.waitlisted,
          add_request u rid (looked_up_title rid st) s e "Waitlist" st) := by
  simp only [submit_request, validate_dates, if_neg hd, if_neg hp, looked_up_title]
  simp [hn]

/-- The post-state of the submit handler is either the unchanged input
state (a validation failure) or an `add_request` with status
`Confirmed` or `Waitlist`. -/
lemma submit_request_snd_cases (today : Int) (u : String) (rid s e : Int)
    (st : AppState) :
    (submit_request today u rid s e st).2 = st ∨
      ∃ status, (status = "Confirmed" ∨ status = "Waitlist") ∧
        (submit_request today u rid s e st).2 =
          add_request u rid (looked_up_title rid st) s e status st := by
  by_cases hd : s > e
  · left; simp [submit_request, validate_dates, if_pos hd]
  by_cases hp : s < today ∨ e < today
  · left; simp [submit_request, validate_dates, if_neg hd, if_pos hp]
  by_cases hn : py_strip u = ""
  · left; simp [submit_request, validate_dates, if_neg hd, if_neg hp, hn]
  rw [submit_request_valid_eq today u rid s e st hd hp hn]
  by_cases ha : is_resource_available rid s e st.requests_df
  · right
    exact ⟨"Confirmed", Or.inl rfl, by rw [if_pos ha]⟩
  · right
    exact ⟨"Waitlist", Or.inr rfl, by rw [if_neg ha]⟩

/-- The program invariant carried along `Reachable`: both id columns
are pairwise-distinct positives, and every request status is the
literal `Confirmed` or `Waitlist` written by the booking flow. -/
def StateInv (st : AppState) : Prop :=
  distinct_pos (st.resources_df.map Resource.id) ∧
    distinct_pos (st.requests_df.map Request.request_id) ∧
    ∀ r ∈ st.requests_df, r.status = "Confirmed" ∨ r.status = "Waitlist"

/-- `add_request` with a booking-flow status preserves the invariant. -/
lemma add_request_inv (u : String) (rid : Int) (title : String)
    (s e : Int) (status : String)
    (hstat : status = "Confirmed" ∨ status = "Waitlist") (st : AppState)
    (h : StateInv st) : StateInv (add_request u rid title s e status st) := by
  rcases h with ⟨hres, hreq, hst⟩
  refine ⟨?_, ?_, ?_⟩
  · rw [add_request_resources]
    by_cases hc : status = "Confirmed"
    · rw [if_pos hc, clear_preserves_id]; exact hres
    · rw [if_neg hc]; exact hres
  · rw [add_request_requests, List.map_append, List.map_singleton]
    have h2 := distinct_pos_append_fresh (st.requests_df.map Request.request_id) hreq
    rwa [isEmpty_map] at h2
  · rw [add_request_requests]
    intro r hr
    rcases List.mem_append.mp hr with hMem | hLast
    · exact hst r hMem
    · have h2 := List.mem_singleton.mp hLast
      rw [h2]
      exact hstat

/-- Every reachable state satisfies the invariant. -/
lemma reachable_inv (st : AppState) (h : Reachable st) : StateInv st := by
  induction h with
  | init =>
    refine ⟨⟨?_, ?_⟩, ⟨?_, ?_⟩, ?_⟩ <;> simp
  | offer r st hst ih =>
    rcases ih with ⟨hres, hreq, hstat⟩
    refine ⟨?_, hreq, hstat⟩
    simp only [offer_resource, new_resource_id, List.map_append, List.map_singleton]
    have h2 := distinct_pos_append_fresh (st.resources_df.map Resource.id) hres
    rwa [isEmpty_map] at h2
  | submit today u rid s e st hst ih =>
    rcases submit_request_snd_cases today u rid s e st with hsame | ⟨status, hstat2, heq⟩
    · rwa [hsame]
    · rw [heq]
      exact add_request_inv u rid _ s e status hstat2 st ih

/-- One-row ledgers: availability reduces to the single overlap test. -/
lemma avail_singleton (rid s e : Int) (r : Request) :
    is_resource_available rid s e [r] =
      if r.resource_id = rid ∧ r.status = "Confirmed" then
        if s ≤ r.end_date ∧ e ≥ r.start_date then false else true
      else true := by
  by_cases h1 : r.resource_id = rid ∧ r.status = "Confirmed"
  · simp only [is_resource_available, if_pos h1]
  · simp only [is_resource_available, if_neg h1]

/-- The `search` loop, run from an accumulator shorter than `k`, keeps
the non-negative entries in order, up to the room left in the
accumulator. -/
lemma search_go_eq (k : Nat) (pairs : List (ℚ × Int)) :
    ∀ (acc : List SearchHit), acc.length < k →
      search_go k acc pairs =
        acc ++ (((pairs.filter (fun p => decide (0 ≤ p.1))).map mk_hit).take
          (k - acc.length)) := by
  induction pairs with
  | nil => intro acc hlt; simp [search_go]
  | cons p rest ih =>
    intro acc hlt
    by_cases hp : (0:ℚ) ≤ p.1
    · simp only [search_go, if_pos hp]
      by_cases hk : k ≤ (acc ++ [mk_hit p]).length
      · rw [if_pos hk]
        have hlen : (acc ++ [mk_hit p]).length = acc.length + 1 := by simp
        have hkeq : k - acc.length = 1 := by
          rw [hlen] at hk; omega
        rw [List.filter_cons_of_pos (by simpa using hp), List.map_cons, hkeq,
          List.take_succ_cons, List.take_zero]
      · rw [if_neg hk]
        have hlen : (acc ++ [mk_hit p]).length = acc.length + 1 := by simp
        have h2 : (acc ++ [mk_hit p]).length < k := by omega
        rw [ih _ h2, List.filter_cons_of_pos (by simpa using hp), List.map_cons]
        have h3 : k - acc.length = (k - (acc ++ [mk_hit p]).length) + 1 := by
          rw [hlen]; omega
        rw [h3, List.take_succ_cons, hlen, List.append_assoc, List.singleton_append]
    · simp only [search_go, if_neg hp]
      rw [if_neg (by omega), ih acc hlt,
        List.filter_cons_of_neg (by simpa using hp)]

/-- `search` agrees with the specification's description of the query
phase whenever at least one result is wanted. -/
lemma search_eq_spec (k : Nat) (pairs : List (ℚ × Int)) (hk : 1 ≤ k) :
    search k pairs = search_from_spec k pairs := by
  rw [search, search_go_eq k pairs [] (by simp only [List.length_nil]; omega),
    search_from_spec]
  simp

/-- Every row the `search` loop emits carries the score the loop
attached to its own distance. -/
lemma search_go_score (k : Nat) (pairs : List (ℚ × Int)) :
    ∀ (acc : List SearchHit), (∀ h ∈ acc, h.score = score h.dist) →
      ∀ h ∈ search_go k acc pairs, h.score = score h.dist := by
  induction pairs with
  | nil => intro acc hacc; simpa [search_go] using hacc
  | cons p rest ih =>
    intro acc hacc
    have hacc2 : ∀ h ∈ (if (0:ℚ) ≤ p.1 then acc ++ [mk_hit p] else acc),
        h.score = score h.dist := by
      by_cases hp : (0:ℚ) ≤ p.1
      · rw [if_pos hp]
        intro h hmem
        rcases List.mem_append.mp hmem with hMem | hLast
        · exact hacc h hMem
        · rw [List.mem_singleton.mp hLast]; rfl
      · rw [if_neg hp]; exact hacc
    simp only [search_go]
    by_cases hb : k ≤ (if (0:ℚ) ≤ p.1 then acc ++ [mk_hit p] else acc).length
    · rw [if_pos hb]; exact hacc2
    · rw [if_neg hb]; exact ih _ hacc2

/-! ## Claims -/

/-- Sample concrete resource used to instantiate general theorems. -/
def sample_resource : Resource :=
  { id := 1
    title := "Drill"
    category := "Tools"
    description := "Cordless drill"
    location := "Community shed"
    availability_start := "2025-06-01"
    availability_end := "2025-06-10"
    condition := "Good"
    rating := 5 }

/-- Claim C1: `is_resource_available(resourceId, start, end, ledger)`
returns false if and only if the candidate closed range intersects at
least one ledger entry with that resource id and status `Confirmed`,
under the closed-interval rule that `[s1,e1]` and `[s2,e2]` overlap iff
`s1 <= e2` and `e1 >= s2`; in particular it returns true whenever the
ledger has no `Confirmed` entry for that resource. -/
theorem is_resource_available_false_iff (rid s e : Int) (ledger : List Request) :
    (is_resource_available rid s e ledger = false ↔
      ∃ r ∈ ledger, r.resource_id = rid ∧ r.status = "Confirmed" ∧
        s ≤ r.end_date ∧ e ≥ r.start_date) ∧
    ((∀ r ∈ ledger, r.resource_id = rid → r.status ≠ "Confirmed") →
      is_resource_available rid s e ledger = true) := by
  constructor
  · exact avail_false_iff rid s e ledger
  · intro hnone
    cases hcase : is_resource_available rid s e ledger with
    | true => rfl
    | false =>
      rcases (avail_false_iff rid s e ledger).mp hcase with ⟨r, hr, h1, h2, _⟩
      exact absurd h2 (hnone r hr h1)

/-- Witness for C1 on a concrete ledger with no `Confirmed` entry. -/
theorem is_resource_available_false_iff_witness :
    is_resource_available 1 5 7
      [{ request_id := 1, user_name := "bob", resource_id := 1,
         resource_title := "Drill", start_date := 6, end_date := 9,
         status := "Waitlist" }] = true :=
  (is_resource_available_false_iff 1 5 7 _).2 (by decide)

/-- Claim C2 as stated is false on the code: the availability check
consults only the confirmed ledger entries, never the cleared
availability fields, so after one confirmed booking on resource 1 for
days 10-19 a second valid submission for the non-overlapping days
20-25 is confirmed again rather than waitlisted. -/
theorem second_booking_confirmed_cex :
    ((submit_request 0 "bob" 1 10 19
        { resources_df := [sample_resource], requests_df := [] }).2.resources_df =
      [{ sample_resource with availability_start := "", availability_end := "" }]) ∧
    ((submit_request 0 "alice" 1 20 25
        (submit_request 0 "bob" 1 10 19
          { resources_df := [sample_resource], requests_df := [] }).2).1 ≠
      SubmitOutcome.waitlisted) ∧
    ((submit_request 0 "alice" 1 20 25
        (submit_request 0 "bob" 1 10 19
          { resources_df := [sample_resource], requests_df := [] }).2).1 =
      SubmitOutcome.confirmedBooking) := by
  refine ⟨?_, ?_, ?_⟩ <;> decide

/-- Claim C2 (amended): after one `Confirmed` booking has been recorded
for resource X (and X's availability fields cleared), a subsequent
booking submission for X with valid future dates that do not overlap
the confirmed range (nor any other confirmed entry) is `Confirmed`
again, not waitlisted: the cleared availability fields are never
consulted by the booking path, which waitlists only on ledger
overlap. -/
theorem second_booking_confirmed
    (today : Int) (u1 u2 : String) (rid s1 e1 s2 e2 : Int) (st0 : AppState)
    (hd1 : s1 ≤ e1) (hs1 : today ≤ s1)
    (hd2 : s2 ≤ e2) (hs2 : today ≤ s2)
    (hn1 : py_strip u1 ≠ "") (hn2 : py_strip u2 ≠ "")
    (hav1 : is_resource_available rid s1 e1 st0.requests_df = true)
    (hav2 : is_resource_available rid s2 e2 st0.requests_df = true)
    (hnov : e1 < s2 ∨ e2 < s1) :
    (submit_request today u1 rid s1 e1 st0).1 = SubmitOutcome.confirmedBooking ∧
    (submit_request today u2 rid s2 e2
        (submit_request today u1 rid s1 e1 st0).2).1 =
      SubmitOutcome.confirmedBooking := by
  have hvd1 : ¬ s1 > e1 := by omega
  have hvp1 : ¬ (s1 < today ∨ e1 < today) := by omega
  have hvd2 : ¬ s2 > e2 := by omega
  have hvp2 : ¬ (s2 < today ∨ e2 < today) := by omega
  have h1 := submit_request_valid_eq today u1 rid s1 e1 st0 hvd1 hvp1 hn1
  have hfst : (submit_request today u1 rid s1 e1 st0).2 =
      add_request u1 rid (looked_up_title rid st0) s1 e1 "Confirmed" st0 := by
    rw [h1, if_pos hav1]
  have hav2' : is_resource_available rid s2 e2
      (add_request u1 rid (looked_up_title rid st0) s1 e1 "Confirmed" st0).requests_df =
      true := by
    have hno : ¬ (s2 ≤ e1 ∧ s1 ≤ e2) := by omega
    rw [add_request_requests, avail_append, hav2, Bool.true_and, avail_singleton]
    simp [ge_iff_le, hno]
  refine ⟨by rw [h1, if_pos hav1], ?_⟩
  rw [hfst,
    submit_request_valid_eq today u2 rid s2 e2 _ hvd2 hvp2 hn2, if_pos hav2']

/-- Witness for the amended C2 on days 10-19 then 20-25 of resource 1. -/
theorem second_booking_confirmed_witness :
    (submit_request 0 "bob" 1 10 19
        { resources_df := [sample_resource], requests_df := [] }).1 =
      SubmitOutcome.confirmedBooking ∧
    (submit_request 0 "alice" 1 20 25
        (submit_request 0 "bob" 1 10 19
          { resources_df := [sample_resource], requests_df := [] }).2).1 =
      SubmitOutcome.confirmedBooking :=
  second_booking_confirmed 0 "bob" "alice" 1 10 19 20 25
    { resources_df := [sample_resource], requests_df := [] }
    (by decide) (by decide) (by decide) (by decide) (by decide) (by decide)
    (by decide) (by decide) (by decide)

/-- Claim C3: every booking submission that passes validation performs
exactly one ledger append; on a successful availability check the
appended request has status `Confirmed` and exactly the availability
columns of the rows with the requested id are blanked, every other
field and row unchanged; on a failed check the appended request has
status `Waitlist` and the resource frame is untouched. -/
theorem submit_request_effects
    (today : Int) (u : String) (rid s e : Int) (st : AppState)
    (hd : s ≤ e) (hs : today ≤ s) (hn : py_strip u ≠ "") :
    ∃ req : Request,
      (submit_request today u rid s e st).2.requests_df =
        st.requests_df ++ [req] ∧
      req.user_name = u ∧ req.resource_id = rid ∧
      req.start_date = s ∧ req.end_date = e ∧
      (is_resource_available rid s e st.requests_df = true →
        req.status = "Confirmed" ∧
        (submit_request today u rid s e st).2.resources_df.length =
          st.resources_df.length ∧
        ∀ i : Nat, (submit_request today u rid s e st).2.resources_df[i]? =
          (st.resources_df[i]?).map (fun r =>
            if r.id = rid then
              { r with availability_start := "", availability_end := "" }
            else r)) ∧
      (is_resource_available rid s e st.requests_df = false →
        req.status = "Waitlist" ∧
        (submit_request today u rid s e st).2.resources_df =
          st.resources_df) := by
  have hvd : ¬ s > e := by omega
  have hvp : ¬ (s < today ∨ e < today) := by omega
  by_cases ha : is_resource_available rid s e st.requests_df = true
  · have hsnd : (submit_request today u rid s e st).2 =
        add_request u rid (looked_up_title rid st) s e "Confirmed" st := by
      rw [submit_request_valid_eq today u rid s e st hvd hvp hn, if_pos ha]
    refine ⟨{ request_id :=
                if st.requests_df.isEmpty then 1
                else col_max (st.requests_df.map Request.request_id) + 1
              user_name := u
              resource_id := rid
              resource_title := looked_up_title rid st
              start_date := s
              end_date := e
              status := "Confirmed" }, ?_, rfl, rfl, rfl, rfl, ?_, ?_⟩
    · rw [hsnd]
      exact add_request_requests u rid (looked_up_title rid st) s e "Confirmed" st
    · intro _
      refine ⟨rfl, ?_, ?_⟩
      · rw [hsnd, add_request_resources, if_pos rfl]
        exact List.length_map _ _
      · intro i
        rw [hsnd, add_request_resources, if_pos rfl]
        exact List.getElem?_map _ _ _
    · intro hfalse
      rw [ha] at hfalse
      simp at hfalse
  · have hsnd : (submit_request today u rid s e st).2 =
        add_request u rid (looked_up_title rid st) s e "Waitlist" st := by
      rw [submit_request_valid_eq today u rid s e st hvd hvp hn, if_neg ha]
    refine ⟨{ request_id :=
                if st.requests_df.isEmpty then 1
                else col_max (st.requests_df.map Request.request_id) + 1
              user_name := u
              resource_id := rid
              resource_title := looked_up_title rid st
              start_date := s
              end_date := e
              status := "Waitlist" }, ?_, rfl, rfl, rfl, rfl, ?_, ?_⟩
    · rw [hsnd]
      exact add_request_requests u rid (looked_up_title rid st) s e "Waitlist" st
    · intro htrue
      exact absurd htrue ha
    · intro _
      refine ⟨rfl, ?_⟩
      rw [hsnd, add_request_resources, if_neg (by decide)]

/-- Witness for C3: one confirmed booking of resource 1 on days 10-19
starting from a singleton resource store and an empty ledger. -/
theorem submit_request_effects_witness :
    ∃ req : Request,
      (submit_request 0 "bob" 1 10 19
        { resources_df := [sample_resource], requests_df := [] }).2.requests_df =
        ([] : List Request) ++ [req] ∧
      req.user_name = "bob" ∧ req.resource_id = 1 ∧
      req.start_date = 10 ∧ req.end_date = 19 ∧
      (is_resource_available 1 10 19 [] = true →
        req.status = "Confirmed" ∧
        (submit_request 0 "bob" 1 10 19
          { resources_df := [sample_resource],
            requests_df := [] }).2.resources_df.length =
          [sample_resource].length ∧
        ∀ i : Nat, (submit_request 0 "bob" 1 10 19
            { resources_df := [sample_resource],
              requests_df := [] }).2.resources_df[i]? =
          (([sample_resource])[i]?).map (fun r =>
            if r.id = 1 then
              { r with availability_start := "", availability_end := "" }
            else r)) ∧
      (is_resource_available 1 10 19 [] = false →
        req.status = "Waitlist" ∧
        (submit_request 0 "bob" 1 10 19
          { resources_df := [sample_resource],
            requests_df := [] }).2.resources_df =
          [sample_resource]) :=
  submit_request_effects 0 "bob" 1 10 19
    { resources_df := [sample_resource], requests_df := [] }
    (by decide) (by decide) (by decide)

/-- Claim C4: booking validation runs in order and short-circuits on
the first failure: `startDate > endDate` fails with the invalid-range
message, then either date before today fails with the past-date
message, then a user name empty after stripping whitespace fails with
the missing-name message; on every such failure the returned state is
the unchanged input state (no ledger append, no store mutation). -/
theorem submit_request_validation_order
    (today : Int) (u : String) (rid s e : Int) (st : AppState) :
    (s > e → submit_request today u rid s e st =
      (SubmitOutcome.validationError
        "Start date must be before or equal to end date.", st)) ∧
    (¬ s > e → (s < today ∨ e < today) →
      submit_request today u rid s e st =
        (SubmitOutcome.validationError "Dates cannot be in the past.", st)) ∧
    (¬ s > e → ¬ (s < today ∨ e < today) → py_strip u = "" →
      submit_request today u rid s e st =
        (SubmitOutcome.validationError "Please enter your name.", st)) := by
  refine ⟨?_, ?_, ?_⟩
  · intro hd
    simp [submit_request, validate_dates, if_pos hd]
  · intro hd hp
    simp [submit_request, validate_dates, if_neg hd, if_pos hp]
  · intro hd hp hn
    simp [submit_request, validate_dates, if_neg hd, if_neg hp, hn]

/-- Witness for C4: each of the three validation failures on a
concrete submission, with the unchanged empty state returned. -/
theorem submit_request_validation_order_witness :
    (submit_request 0 "bob" 1 5 3 { resources_df := [], requests_df := [] } =
      (SubmitOutcome.validationError
        "Start date must be before or equal to end date.",
        { resources_df := [], requests_df := [] })) ∧
    (submit_request 10 "bob" 1 3 5 { resources_df := [], requests_df := [] } =
      (SubmitOutcome.validationError "Dates cannot be in the past.",
        { resources_df := [], requests_df := [] })) ∧
    (submit_request 0 "   " 1 3 5 { resources_df := [], requests_df := [] } =
      (SubmitOutcome.validationError "Please enter your name.",
        { resources_df := [], requests_df := [] })) :=
  ⟨(submit_request_validation_order 0 "bob" 1 5 3 _).1 (by decide),
   (submit_request_validation_order 10 "bob" 1 3 5 _).2.1 (by decide)
     (by decide),
   (submit_request_validation_order 0 "   " 1 3 5 _).2.2 (by decide)
     (by decide) (by decide)⟩

/-- Claim C5: for every query (represented by the index reply `pairs`)
and every `k >= 1`, `search(query, k)` equals the spec's description —
over-fetched entries filtered of negative distances, scored, and cut to
the first `k` survivors in retrieved order — hence returns at most `k`
results, and preserves the ascending-distance (nearest-first) order of
the retrieved entries. -/
theorem search_spec_conformance (k : Nat) (pairs : List (ℚ × Int))
    (hk : 1 ≤ k) :
    search k pairs = search_from_spec k pairs ∧
    (search k pairs).length ≤ k ∧
    (List.Pairwise (fun a b => a.1 ≤ b.1) pairs →
      List.Pairwise (fun a b => a.dist ≤ b.dist) (search k pairs)) := by
  refine ⟨search_eq_spec k pairs hk, ?_, ?_⟩
  · rw [search_eq_spec k pairs hk, search_from_spec, List.length_take]
    exact min_le_left _ _
  · intro hsorted
    rw [search_eq_spec k pairs hk, search_from_spec]
    have h1 : List.Pairwise (fun a b => a.1 ≤ b.1)
        (pairs.filter (fun p => decide (0 ≤ p.1))) := hsorted.filter _
    have h2 : List.Pairwise (fun a b => a.dist ≤ b.dist)
        ((pairs.filter (fun p => decide (0 ≤ p.1))).map mk_hit) :=
      (List.pairwise_map).mpr h1
    exact h2.sublist (List.take_sublist _ _)

/-- Witness for C5 on a four-entry index reply containing one
negative-distance sentinel. -/
theorem search_spec_conformance_witness :
    search 2 [((0:ℚ), (0:Int)), (-1, 1), (1, 2), (3, 3)] =
      search_from_spec 2 [((0:ℚ), (0:Int)), (-1, 1), (1, 2), (3, 3)] ∧
    (search 2 [((0:ℚ), (0:Int)), (-1, 1), (1, 2), (3, 3)]).length ≤ 2 ∧
    (List.Pairwise (fun a b => a.1 ≤ b.1)
        [((0:ℚ), (0:Int)), (-1, 1), (1, 2), (3, 3)] →
      List.Pairwise (fun a b => a.dist ≤ b.dist)
        (search 2 [((0:ℚ), (0:Int)), (-1, 1), (1, 2), (3, 3)])) :=
  search_spec_conformance 2 [((0:ℚ), (0:Int)), (-1, 1), (1, 2), (3, 3)]
    (by omega)

/-- Claim C6: every row `search` emits carries the score
`max(1 - d/2, 0)` of its own reported distance `d`, and that score is a
monotonically decreasing, never negative function of distance. -/
theorem score_properties :
    (∀ (k : Nat) (pairs : List (ℚ × Int)) (h : SearchHit),
        h ∈ search k pairs → h.score = max (1 - h.dist / 2) 0) ∧
    (∀ d1 d2 : ℚ, d1 ≤ d2 → score d2 ≤ score d1) ∧
    (∀ d : ℚ, 0 ≤ score d) := by
  refine ⟨?_, ?_, ?_⟩
  · intro k pairs h hmem
    exact search_go_score k pairs [] (by intro h2 hmem2; cases hmem2) h hmem
  · intro d1 d2 hle
    exact max_le_max (by linarith) le_rfl
  · intro d
    exact le_max_right _ _

/-- Witness for C6 at distance 0 (kept hit of a singleton reply) and
the concrete distances 1, 3 and 7. -/
theorem score_properties_witness :
    (mk_hit ((0:ℚ), (0:Int))).score =
      max (1 - (mk_hit ((0:ℚ), (0:Int))).dist / 2) 0 ∧
    score 3 ≤ score 1 ∧ 0 ≤ score 7 :=
  ⟨score_properties.1 1 [((0:ℚ), (0:Int))] (mk_hit ((0:ℚ), (0:Int)))
      (by rw [show search 1 [((0:ℚ), (0:Int))] = [mk_hit ((0:ℚ), (0:Int))]
            from rfl]
          exact List.mem_singleton_self _),
   score_properties.2.1 1 3 (by norm_num),
   score_properties.2.2 7⟩

/-- Claim C7 as stated is false on the code: the Smart Search page
guards the call to `search` with a plain truthiness test `if query:`,
which is true for a whitespace-only query, so a whitespace-only query
is searched like any other and can return results — here the index
reply holds one entry at distance 0, and the result list is
non-empty rather than empty. -/
theorem whitespace_query_not_zero_results :
    handle_search_query " " [((0:ℚ), (0:Int))] ≠ [] := by
  rw [show handle_search_query " " [((0:ℚ), (0:Int))] =
      [mk_hit ((0:ℚ), (0:Int))] from rfl]
  simp

/-- Claim C7 (amended): a search with an empty query yields an empty
result sequence because `search` is never invoked; a whitespace-only
query is not special-cased — it is passed to `search` like any other
query — and the result sequence is empty whenever every entry of the
index reply reports a negative (sentinel) distance, in particular when
no resource set exists and the index returns nothing. -/
theorem search_query_handling (query : String) (pairs : List (ℚ × Int)) :
    handle_search_query "" pairs = [] ∧
    (query ≠ "" → handle_search_query query pairs = search 5 pairs) ∧
    ((∀ p ∈ pairs, p.1 < 0) → handle_search_query query pairs = []) := by
  refine ⟨by rw [handle_search_query, if_pos rfl], ?_, ?_⟩
  · intro hq
    rw [handle_search_query, if_neg hq]
  · intro hneg
    by_cases hq : query = ""
    · rw [handle_search_query, if_pos hq]
    · rw [handle_search_query, if_neg hq,
        search_eq_spec 5 pairs (by omega), search_from_spec]
      have hfil : pairs.filter (fun p => decide (0 ≤ p.1)) = [] := by
        rw [List.filter_eq_nil_iff]
        intro p hp
        simpa using not_le.mpr (hneg p hp)
      rw [hfil]
      rfl

/-- Witness for the amended C7: empty query, then a whitespace query
over an all-sentinel reply. -/
theorem search_query_handling_witness :
    handle_search_query "" [((-1:ℚ), (0:Int))] = [] ∧
    handle_search_query " " [((-1:ℚ), (0:Int))] = [] :=
  ⟨(search_query_handling " " [((-1:ℚ), (0:Int))]).1,
   (search_query_handling " " [((-1:ℚ), (0:Int))]).2.2
     (by intro p hp
         rw [List.mem_singleton.mp hp]
         norm_num)⟩

/-- Bridge between the `isEmpty` test of the source and the
specification's "store empty" wording. -/
lemma isEmpty_ite {α β : Type} [DecidableEq α] (l : List α) (x y : β) :
    (if l.isEmpty then x else y) = (if l = [] then x else y) := by
  cases l <;> simp

/-- Claim C8: a created resource receives id `max(existing)+1` (1 on an
empty store), an appended request receives `request_id` `max(existing)+1`
(1 on an empty ledger); consequently, in every state built only by
these operations, both id columns consist of pairwise-distinct positive
integers. -/
theorem id_assignment (st : AppState) (h : Reachable st) :
    (∀ i ∈ st.resources_df.map Resource.id, 0 < i) ∧
    List.Pairwise (fun a b => a ≠ b) (st.resources_df.map Resource.id) ∧
    (∀ i ∈ st.requests_df.map Request.request_id, 0 < i) ∧
    List.Pairwise (fun a b => a ≠ b)
      (st.requests_df.map Request.request_id) ∧
    (∀ r : Resource, ∃ r2 : Resource,
        offer_resource r st.resources_df = st.resources_df ++ [r2] ∧
        r2.id = (if st.resources_df = [] then 1
                 else col_max (st.resources_df.map Resource.id) + 1)) ∧
    (∀ (u title : String) (rid s e : Int) (status : String),
        ∃ req : Request,
          (add_request u rid title s e status st).requests_df =
            st.requests_df ++ [req] ∧
          req.request_id =
            (if st.requests_df = [] then 1
             else col_max (st.requests_df.map Request.request_id) + 1)) := by
  obtain ⟨⟨hrpos, hrpw⟩, ⟨hqpos, hqpw⟩, _⟩ := reachable_inv st h
  refine ⟨hrpos, hrpw, hqpos, hqpw, ?_, ?_⟩
  · intro r
    refine ⟨{ r with id := new_resource_id st.resources_df }, rfl, ?_⟩
    show new_resource_id st.resources_df = _
    rw [new_resource_id, isEmpty_ite]
  · intro u title rid s e status
    refine ⟨{ request_id :=
                if st.requests_df.isEmpty then 1
                else col_max (st.requests_df.map Request.request_id) + 1
              user_name := u
              resource_id := rid
              resource_title := title
              start_date := s
              end_date := e
              status := status },
            add_request_requests u rid title s e status st, ?_⟩
    show (if st.requests_df.isEmpty then 1
          else col_max (st.requests_df.map Request.request_id) + 1) = _
    rw [isEmpty_ite]

/-- Concrete reachable state: one offered resource, then one confirmed
booking of it. -/
def sample_reachable_state : AppState :=
  (submit_request 0 "bob" 1 10 19
    { resources_df := offer_resource sample_resource []
      requests_df := [] }).2

/-- Witness for C8 at the concrete reachable state. -/
theorem id_assignment_witness :
    (∀ i ∈ sample_reachable_state.resources_df.map Resource.id, 0 < i) ∧
    List.Pairwise (fun a b => a ≠ b)
      (sample_reachable_state.resources_df.map Resource.id) ∧
    (∀ i ∈ sample_reachable_state.requests_df.map Request.request_id,
        0 < i) ∧
    List.Pairwise (fun a b => a ≠ b)
      (sample_reachable_state.requests_df.map Request.request_id) ∧
    (∀ r : Resource, ∃ r2 : Resource,
        offer_resource r sample_reachable_state.resources_df =
          sample_reachable_state.resources_df ++ [r2] ∧
        r2.id = (if sample_reachable_state.resources_df = [] then 1
                 else col_max
                   (sample_reachable_state.resources_df.map Resource.id) +
                     1)) ∧
    (∀ (u title : String) (rid s e : Int) (status : String),
        ∃ req : Request,
          (add_request u rid title s e status
              sample_reachable_state).requests_df =
            sample_reachable_state.requests_df ++ [req] ∧
          req.request_id =
            (if sample_reachable_state.requests_df = [] then 1
             else col_max
               (sample_reachable_state.requests_df.map Request.request_id) +
                 1)) :=
  id_assignment sample_reachable_state
    (Reachable.submit 0 "bob" 1 10 19 _
      (Reachable.offer sample_resource _ Reachable.init))

/-- Claim C9: the Quick Stats and Admin Dashboard counters compare the
status column against the lowercase strings `confirmed` and
`requested`, while the booking flow only writes `Confirmed` and
`Waitlist`; hence on every state the booking flow can produce, both
counters are 0 no matter how many requests exist. -/
theorem stale_status_counters (st : AppState) (h : Reachable st) :
    confirmed_requests st.requests_df = 0 ∧
    waitlist_requests st.requests_df = 0 := by
  have hstat := (reachable_inv st h).2.2
  constructor
  · rw [confirmed_requests, List.length_eq_zero, List.filter_eq_nil_iff]
    intro r hr
    rcases hstat r hr with h1 | h1 <;> simp [h1]
  · rw [waitlist_requests, List.length_eq_zero, List.filter_eq_nil_iff]
    intro r hr
    rcases hstat r hr with h1 | h1 <;> simp [h1]

/-- Witness for C9 at the concrete reachable state holding one
confirmed request. -/
theorem stale_status_counters_witness :
    confirmed_requests sample_reachable_state.requests_df = 0 ∧
    waitlist_requests sample_reachable_state.requests_df = 0 :=
  stale_status_counters sample_reachable_state
    (Reachable.submit 0 "bob" 1 10 19 _
      (Reachable.offer sample_resource _ Reachable.init))

/-- Claim C10: the booking path never checks that the resource id
exists — a validated submission for an id absent from the store still
appends a request (its outcome is confirmed or waitlisted, never an
error), and the store mutation of the confirmed branch matches zero
rows, leaving the resource frame unchanged. -/
theorem submit_absent_resource
    (today : Int) (u : String) (rid s e : Int) (st : AppState)
    (hd : s ≤ e) (hs : today ≤ s) (hn : py_strip u ≠ "")
    (habs : ∀ r ∈ st.resources_df, r.id ≠ rid) :
    ((submit_request today u rid s e st).1 = SubmitOutcome.confirmedBooking ∨
      (submit_request today u rid s e st).1 = SubmitOutcome.waitlisted) ∧
    (∃ req : Request, (submit_request today u rid s e st).2.requests_df =
        st.requests_df ++ [req]) ∧
    (submit_request today u rid s e st).2.resources_df = st.resources_df := by
  have hvd : ¬ s > e := by omega
  have hvp : ¬ (s < today ∨ e < today) := by omega
  have heq := submit_request_valid_eq today u rid s e st hvd hvp hn
  by_cases ha : is_resource_available rid s e st.requests_df = true
  · have hfst : (submit_request today u rid s e st).1 =
        SubmitOutcome.confirmedBooking := by rw [heq, if_pos ha]
    have hsnd : (submit_request today u rid s e st).2 =
        add_request u rid (looked_up_title rid st) s e "Confirmed" st := by
      rw [heq, if_pos ha]
    refine ⟨Or.inl hfst,
      ⟨_, by rw [hsnd]
             exact add_request_requests u rid (looked_up_title rid st) s e
               "Confirmed" st⟩, ?_⟩
    rw [hsnd, add_request_resources, if_pos rfl]
    have hmap : ∀ r ∈ st.resources_df,
        (if r.id = rid then
          { r with availability_start := "", availability_end := "" }
        else r) = r := fun r hr => if_neg (habs r hr)
    rw [List.map_congr_left hmap, List.map_id']
  · have hfst : (submit_request today u rid s e st).1 =
        SubmitOutcome.waitlisted := by rw [heq, if_neg ha]
    have hsnd : (submit_request today u rid s e st).2 =
        add_request u rid (looked_up_title rid st) s e "Waitlist" st := by
      rw [heq, if_neg ha]
    refine ⟨Or.inr hfst,
      ⟨_, by rw [hsnd]
             exact add_request_requests u rid (looked_up_title rid st) s e
               "Waitlist" st⟩, ?_⟩
    rw [hsnd, add_request_resources, if_neg (by decide)]

/-- Witness for C10: a validated submission naming the absent resource
id 99 against a store holding only resource 1. -/
theorem submit_absent_resource_witness :
    ((submit_request 0 "bob" 99 10 19
        { resources_df := [sample_resource], requests_df := [] }).1 =
      SubmitOutcome.confirmedBooking ∨
      (submit_request 0 "bob" 99 10 19
        { resources_df := [sample_resource], requests_df := [] }).1 =
      SubmitOutcome.waitlisted) ∧
    (∃ req : Request,
        (submit_request 0 "bob" 99 10 19
          { resources_df := [sample_resource],
            requests_df := [] }).2.requests_df =
          ([] : List Request) ++ [req]) ∧
    (submit_request 0 "bob" 99 10 19
      { resources_df := [sample_resource], requests_df := [] }).2.resources_df =
      [sample_resource] :=
  submit_absent_resource 0 "bob" 99 10 19
    { resources_df := [sample_resource], requests_df := [] }
    (by decide) (by decide) (by decide) (by decide)

example :
    is_resource_available 1 5 7
      [{ request_id := 1, user_name := "bob", resource_id := 1,
         resource_title := "Drill", start_date := 6, end_date := 9,
         status := "Confirmed" }] = false := by decide
